import Mathlib

/-!
Verification of `pylgbst/comms/cbleak.py`.

Shallow embedding of the sync/async BLE bridge in `pylgbst/comms/cbleak.py`:
the device-discovery and connect loops of `BleakConnection` and `BleakConnection2`,
the `BleakDriver` façade with its two communication threads and the global
request/response queues, and handle-to-characteristic resolution on write.

Python byte payloads are `List Nat`; transport-level effects are recorded as
traces of `TransportOp`; exceptions are `Except` errors.
-/

namespace Pylgbst

/-- A device produced by a discovery scan: `dev.address` and `dev.name`. -/
structure Device where
  address : String
  name : Option String
deriving DecidableEq

/-- Modelled from the spec: the single hardcoded default characteristic UUID
(`MOVE_HUB_HW_UUID_CHAR`, defined in `pylgbst/comms/__init__.py`, which is not
under `src/`).  The claims depend only on it being the one fixed default
characteristic identifier, not on its exact text. -/
def MOVE_HUB_HW_UUID_CHAR : String := "00001624-1212-efde-1623-785feabcd123"

/-- ASCII lowercasing of a string, character by character (Python `str.lower()`
restricted to ASCII, which is all MAC addresses need). -/
def lowerStr (s : String) : String := String.mk (s.data.map Char.toLower)

/-- `needle` occurs as a contiguous sublist of `hay` (Python `a in b` on strings). -/
def hasSub (needle : List Char) : List Char → Bool
  | [] => needle.isEmpty
  | c :: rest => needle.isPrefixOf (c :: rest) || hasSub needle rest

/-- Modelled from the spec: the Device Matcher `_is_device_matched` lives in
`pylgbst/comms/__init__.py`, which is not under `src/`.  Per the spec (§4.1):
if `target.mac` is set, match is case-insensitive equality of the discovered
address with it, the name being ignored; else if `target.name` is set, match
requires it to be a substring of the discovered name (a missing name never
matches); else any device matches. -/
def is_device_matched (address : String) (name : Option String)
    (hub_mac : Option String) (hub_name : Option String) : Bool :=
  match hub_mac with
  | some mac => lowerStr address == lowerStr mac
  | none =>
    match hub_name with
    | some pat =>
      match name with
      | some n => hasSub pat.data n.data
      | none => false
    | none => true

/-- A transport-level operation requested of the BLE client, in order. -/
inductive TransportOp where
  | connect (address : String)
  | subscribe (characteristic : String)
  | writeChar (characteristic : String) (data : List Nat)
  | close
deriving DecidableEq

/-- The inner matching loop shared by both `connect` implementations:
`for dev in devices: ... if self._is_device_matched(...): ...; break`,
i.e. the first device of the scan that the matcher accepts. -/
def findFirstMatch (devices : List Device) (hub_mac hub_name : Option String) :
    Option Device :=
  devices.find? (fun d => is_device_matched d.address d.name hub_mac hub_name)

/-- `BleakConnection.connect` (cbleak.py lines 218-243): performs a single
discovery scan (`await discover(timeout=10)`), takes the first matching device,
raises `ConnectionError('Device not found.')` when the scan has no match, and
otherwise calls `BleakClient(...).connect()` once with the device address.
The environment supplies the stream of scan results; this implementation
consumes only the first scan. -/
def BleakConnection.connect (scans : Nat → List Device)
    (hub_mac hub_name : Option String) :
    Except String (String × List TransportOp) :=
  match findFirstMatch (scans 0) hub_mac hub_name with
  | none => Except.error "Device not found."
  | some d => Except.ok (d.address, [TransportOp.connect d.address])

/-- The outer attempt loop of `BleakConnection2.connect`
(`for i in range(0, 30): devices = discover(timeout=1); ...`): try each scan in
turn, returning the first scan's first matching device, `none` when every scan
fails (the `for ... else: raise ConnectionError`). -/
def connect2Loop (hub_mac hub_name : Option String) :
    List (List Device) → Option Device
  | [] => none
  | scan :: rest =>
    match findFirstMatch scan hub_mac hub_name with
    | some d => some d
    | none => connect2Loop hub_mac hub_name rest

/-- `BleakConnection2.connect` (cbleak.py lines 33-68): up to 30 discovery
scans of 1s each; first matching device wins; `ConnectionError('Device not
found.')` when no attempt yields a match; on a match, one
`BleakClient(...).connect()` with the matched address followed by
`start_notify(MOVE_HUB_HW_UUID_CHAR, enqueue)`. -/
def BleakConnection2.connect (scans : Nat → List Device)
    (hub_mac hub_name : Option String) :
    Except String (String × List TransportOp) :=
  match connect2Loop hub_mac hub_name ((List.range 30).map scans) with
  | none => Except.error "Device not found."
  | some d =>
    Except.ok (d.address,
      [TransportOp.connect d.address,
       TransportOp.subscribe MOVE_HUB_HW_UUID_CHAR])

/-- A GATT descriptor as returned by `client.services.get_descriptor(handle)`. -/
structure Descriptor where
  characteristic_uuid : String
deriving DecidableEq

/-- `BleakConnection.write` (cbleak.py lines 245-264): resolve `handle` through
`services.get_descriptor`; when no descriptor exists, send on the hardcoded
`MOVE_HUB_HW_UUID_CHAR`, otherwise on `desc.characteristic_uuid`.  The
`bytearray(data)` conversion leaves the byte sequence unchanged. -/
def BleakConnection.write (get_descriptor : Nat → Option Descriptor)
    (handle : Nat) (data : List Nat) : TransportOp :=
  match get_descriptor handle with
  | none => TransportOp.writeChar MOVE_HUB_HW_UUID_CHAR data
  | some desc => TransportOp.writeChar desc.characteristic_uuid data

/-- `BleakConnection2.write` (cbleak.py lines 80-90): same resolution rule as
`BleakConnection.write`. -/
def BleakConnection2.write (get_descriptor : Nat → Option Descriptor)
    (handle : Nat) (data : List Nat) : TransportOp :=
  match get_descriptor handle with
  | none => TransportOp.writeChar MOVE_HUB_HW_UUID_CHAR data
  | some desc => TransportOp.writeChar desc.characteristic_uuid data

/-- `BleakConnection.write_char` (cbleak.py lines 266-274): send directly on
the given characteristic. -/
def BleakConnection.write_char (characteristic_uuid : String) (data : List Nat) :
    TransportOp :=
  TransportOp.writeChar characteristic_uuid data

/-- A Python `threading.Thread` object, observed through `is_alive()`. -/
structure ThreadRef where
  alive : Bool
deriving DecidableEq

/-- The Python exceptions `BleakDriver.write` can raise: `ConnectionError`
(explicitly raised), or `AttributeError` (dereferencing a `None` thread
reference before `enable_notifications()` created it). -/
inductive PyError where
  | connectionError (msg : String)
  | attributeError (msg : String)
deriving DecidableEq

/-- The state of a `BleakDriver` object (cbleak.py lines 106-117), together
with observables: how many communication/processing threads have ever been
started, and the contents of the global `req_queue`. -/
structure DriverState where
  hub_mac : Option String
  hub_name : Option String
  handler_set : Bool
  abort : Bool
  connection_thread : Option ThreadRef
  processing_thread : Option ThreadRef
  conn_threads_started : Nat
  proc_threads_started : Nat
  req_queue : List (Nat × List Nat)
deriving DecidableEq

/-- `BleakDriver.__init__` (cbleak.py lines 106-117): handler unset, abort
false, both thread references `None`, nothing started, queue empty. -/
def BleakDriver.init (hub_mac hub_name : Option String) : DriverState :=
  { hub_mac := hub_mac, hub_name := hub_name, handler_set := false,
    abort := false, connection_thread := none, processing_thread := none,
    conn_threads_started := 0, proc_threads_started := 0, req_queue := [] }

/-- `BleakDriver.set_notify_handler` (cbleak.py lines 119-126). -/
def BleakDriver.set_notify_handler (s : DriverState) : DriverState :=
  { s with handler_set := true }

/-- `BleakDriver.enable_notifications` (cbleak.py lines 128-141):
unconditionally creates and starts a new connection thread and a new
processing thread, overwriting the stored references with the fresh
(running) threads. -/
def BleakDriver.enable_notifications (s : DriverState) : DriverState :=
  { s with connection_thread := some { alive := true },
           processing_thread := some { alive := true },
           conn_threads_started := s.conn_threads_started + 1,
           proc_threads_started := s.proc_threads_started + 1 }

/-- `BleakDriver.write` (cbleak.py lines 171-183):
`if not self._connection_thread.is_alive() or not
self._processing_thread.is_alive(): raise ConnectionError(...)`, else
`req_queue.put((handle, data))`.  Python evaluation order: a `None`
connection thread raises `AttributeError` first; a dead connection thread
raises `ConnectionError` before the processing thread is even inspected. -/
def BleakDriver.write (s : DriverState) (handle : Nat) (data : List Nat) :
    Except PyError DriverState :=
  match s.connection_thread with
  | none =>
    Except.error (PyError.attributeError
      "NoneType object has no attribute is_alive")
  | some ct =>
    if ct.alive = false then
      Except.error (PyError.connectionError
        "Something went wrong, communication threads not functioning.")
    else
      match s.processing_thread with
      | none =>
        Except.error (PyError.attributeError
          "NoneType object has no attribute is_alive")
      | some pt =>
        if pt.alive = false then
          Except.error (PyError.connectionError
            "Something went wrong, communication threads not functioning.")
        else
          Except.ok { s with req_queue := s.req_queue ++ [(handle, data)] }

/-- `BleakDriver.disconnect` (cbleak.py lines 185-191): sets `self._abort =
True` and nothing else; in particular it performs no transport operation. -/
def BleakDriver.disconnect (s : DriverState) : DriverState × List TransportOp :=
  ({ s with abort := true }, [])

/-- `BleakDriver.is_alive` (cbleak.py lines 193-202). -/
def BleakDriver.is_alive (s : DriverState) : Bool :=
  match s.connection_thread, s.processing_thread with
  | some ct, some pt => ct.alive && pt.alive
  | _, _ => false

/-- State of a `BleakConnection2` object as far as `disconnect`/`is_alive`
observe it: the `_abort` flag and whether the underlying client reports
itself connected. -/
structure Conn2State where
  abort : Bool
  client_connected : Bool
deriving DecidableEq

/-- `BleakConnection2.disconnect` (cbleak.py lines 70-74): set `_abort`; if
`is_alive()` (i.e. the client reports connected) run `client.disconnect()`.
There is no exception handling, so a failing transport disconnect propagates
to the caller. -/
def BleakConnection2.disconnect (s : Conn2State)
    (transport_disconnect : Except String Unit) :
    Except String (Conn2State × List TransportOp) :=
  let s2 : Conn2State := { s with abort := true }
  if s2.client_connected then
    match transport_disconnect with
    | Except.ok _ =>
      Except.ok ({ s2 with client_connected := false }, [TransportOp.close])
    | Except.error e => Except.error e
  else
    Except.ok (s2, [])

/-! ## The request-queue bridge (`req_queue` and the `_bleak_thread` drain loop) -/

/-- The shared request channel and the sequence of writes the Transport has
observed so far, in order. -/
structure BridgeState where
  req_queue : List (Nat × List Nat)
  written : List (Nat × List Nat)
deriving DecidableEq

/-- One iteration of the `_bleak_thread` drain loop body (cbleak.py lines
150-154): if the queue is non-empty, `data = req_queue.get()` and
`await bleak.write(data[0], data[1])` — dequeue exactly one pending write and
complete its transport write before the next iteration. -/
def drainStep (s : BridgeState) : BridgeState :=
  match s.req_queue with
  | [] => s
  | w :: rest => { req_queue := rest, written := s.written ++ [w] }

/-- An interleaving event: some caller thread enqueues a write
(`req_queue.put` in `BleakDriver.write`), or the communication thread runs one
drain iteration.  The FIFO queue is the serialization point, so an arbitrary
interleaving of caller threads is exactly an arbitrary event list. -/
inductive BridgeEvent where
  | enqueue (w : Nat × List Nat)
  | drain

/-- Apply one interleaving event. -/
def bridgeStep (s : BridgeState) : BridgeEvent → BridgeState
  | BridgeEvent.enqueue w => { s with req_queue := s.req_queue ++ [w] }
  | BridgeEvent.drain => drainStep s

/-- Run a whole interleaving. -/
def bridgeRun (s : BridgeState) : List BridgeEvent → BridgeState
  | [] => s
  | e :: es => bridgeRun (bridgeStep s e) es

/-- The writes enqueued over an interleaving, in channel order. -/
def enqueuedOf (es : List BridgeEvent) : List (Nat × List Nat) :=
  es.filterMap (fun e =>
    match e with
    | BridgeEvent.enqueue w => some w
    | BridgeEvent.drain => none)

/-- The `_bleak_thread` drain loop with a fallible transport write
(cbleak.py lines 150-154): there is no `try`/`except` around
`await bleak.write(...)`, so the first failing write terminates the loop
(the coroutine dies with the exception); on normal shutdown the writes
performed so far are returned. -/
def runBleakLoop (transport_write : Nat × List Nat → Except String Unit) :
    List (Nat × List Nat) → List (Nat × List Nat) →
    Except String (List (Nat × List Nat))
  | [], written => Except.ok written
  | w :: rest, written =>
    match transport_write w with
    | Except.ok _ => runBleakLoop transport_write rest (written ++ [w])
    | Except.error e => Except.error e

/-! ## The response-queue bridge (`resp_queue`, `_safe_handler`, `_processing`) -/

/-- The shared response channel and the notifications the registered handler
has been invoked with so far, in order. -/
structure DispatchState where
  resp_queue : List (Nat × List Nat)
  handled : List (Nat × List Nat)
deriving DecidableEq

/-- `BleakDriver._safe_handler` (cbleak.py lines 158-160): the notification
callback only does `resp_queue.put((handle, data))` — it never invokes the
registered handler. -/
def BleakDriver.safe_handler (s : DispatchState) (handle : Nat)
    (data : List Nat) : DispatchState :=
  { s with resp_queue := s.resp_queue ++ [(handle, data)] }

/-- One iteration of the `_processing` dispatch loop body (cbleak.py lines
162-169): if the queue is non-empty, `msg = resp_queue.get()` and
`self._handler(msg[0], msg[1])`. -/
def processingStep (s : DispatchState) : DispatchState :=
  match s.resp_queue with
  | [] => s
  | m :: rest => { resp_queue := rest, handled := s.handled ++ [m] }

/-- Iterate the dispatch loop `n` times. -/
def processingSteps (s : DispatchState) : Nat → DispatchState
  | 0 => s
  | n + 1 => processingSteps (processingStep s) n

/-- An interleaving event on the response side: the Transport delivers a
notification (routed through `_safe_handler`), or the processing thread runs
one dispatch iteration. -/
inductive NotifyEvent where
  | notify (handle : Nat) (data : List Nat)
  | dispatch

/-- Apply one response-side event. -/
def notifyStep (s : DispatchState) : NotifyEvent → DispatchState
  | NotifyEvent.notify h d => BleakDriver.safe_handler s h d
  | NotifyEvent.dispatch => processingStep s

/-- Run a whole response-side interleaving. -/
def notifyRun (s : DispatchState) : List NotifyEvent → DispatchState
  | [] => s
  | e :: es => notifyRun (notifyStep s e) es

/-- The notifications the Transport emitted over an interleaving, in order. -/
def notifiedOf (es : List NotifyEvent) : List (Nat × List Nat) :=
  es.filterMap (fun e =>
    match e with
    | NotifyEvent.notify h d => some (h, d)
    | NotifyEvent.dispatch => none)

/-- `BleakDriver._bleak_thread` (cbleak.py lines 143-156) as the transport
trace it issues: construct a `BleakConnection` and `await bleak.connect`;
`await bleak.set_notify_handler(self._safe_handler)` (which subscribes on
`MOVE_HUB_HW_UUID_CHAR`); then the keepalive
`await bleak.write_char(MOVE_HUB_HW_UUID_CHAR, bytearray([0x05, 0x00, 0x01,
0x01, 0x05]))`; then the drain loop writes each dequeued request through
`bleak.write`.  `drained` is the list of requests the loop dequeues before
shutdown. -/
def BleakDriver.bleak_thread (scans : Nat → List Device)
    (hub_mac hub_name : Option String)
    (get_descriptor : Nat → Option Descriptor)
    (drained : List (Nat × List Nat)) :
    Except String (List TransportOp) :=
  match BleakConnection.connect scans hub_mac hub_name with
  | Except.error e => Except.error e
  | Except.ok (_, ops) =>
    Except.ok (ops ++
      [TransportOp.subscribe MOVE_HUB_HW_UUID_CHAR,
       BleakConnection.write_char MOVE_HUB_HW_UUID_CHAR
         [0x05, 0x00, 0x01, 0x01, 0x05]] ++
      drained.map (fun w => BleakConnection.write get_descriptor w.1 w.2))

/-- The two-scan discovery environment of the spec's end-to-end scenario:
scan 1 returns only a non-matching device, scan 2 returns the target. -/
def scansC1 : Nat → List Device := fun i =>
  if i = 0 then [{ address := "11:22:33:44:55:66", name := none }]
  else if i = 1 then [{ address := "AA:BB:CC:DD:EE:FF", name := none }]
  else []

/-! ## Helper lemmas -/

theorem find?_first_of_prefix_false {α : Type} (p : α → Bool) :
    ∀ (pre : List α) (d : α) (post : List α),
      (∀ x ∈ pre, p x = false) → p d = true →
      (pre ++ d :: post).find? p = some d := by
  intro pre
  induction pre with
  | nil =>
    intro d post _ hd
    simpa using List.find?_cons_of_pos _ hd
  | cons x xs ih =>
    intro d post hpre hd
    have hx : p x = false := hpre x (by simp)
    simp only [List.cons_append]
    rw [List.find?_cons_of_neg _ (by simp [hx])]
    exact ih d post (fun y hy => hpre y (by simp [hy])) hd

theorem connect2Loop_eq_none (hub_mac hub_name : Option String)
    (L : List (List Device))
    (h : ∀ scan ∈ L, findFirstMatch scan hub_mac hub_name = none) :
    connect2Loop hub_mac hub_name L = none := by
  induction L with
  | nil => rfl
  | cons scan rest ih =>
    have h0 : findFirstMatch scan hub_mac hub_name = none := h scan (by simp)
    simp only [connect2Loop, h0]
    exact ih (fun s hs => h s (by simp [hs]))

theorem connect2Loop_head_match (scans : Nat → List Device)
    (hub_mac hub_name : Option String) (d : Device)
    (h : findFirstMatch (scans 0) hub_mac hub_name = some d) :
    connect2Loop hub_mac hub_name ((List.range 30).map scans) = some d := by
  rw [show (30 : Nat) = 29 + 1 from rfl, List.range_succ_eq_map]
  simp only [List.map_cons, connect2Loop, h]

theorem bridgeRun_inv (es : List BridgeEvent) :
    ∀ s : BridgeState,
      (bridgeRun s es).written ++ (bridgeRun s es).req_queue =
        s.written ++ (s.req_queue ++ enqueuedOf es) := by
  induction es with
  | nil =>
    intro s
    simp [bridgeRun, enqueuedOf]
  | cons e es ih =>
    intro s
    cases e with
    | enqueue w =>
      have h := ih { s with req_queue := s.req_queue ++ [w] }
      simp only [bridgeRun, bridgeStep]
      rw [h]
      simp [enqueuedOf]
    | drain =>
      obtain ⟨q, wr⟩ := s
      cases q with
      | nil =>
        have h := ih { req_queue := [], written := wr }
        simp only [bridgeRun, bridgeStep, drainStep]
        rw [h]
        simp [enqueuedOf]
      | cons w rest =>
        have h := ih { req_queue := rest, written := wr ++ [w] }
        simp only [bridgeRun, bridgeStep, drainStep]
        rw [h]
        simp [enqueuedOf]

theorem notifyRun_inv (es : List NotifyEvent) :
    ∀ s : DispatchState,
      (notifyRun s es).handled ++ (notifyRun s es).resp_queue =
        s.handled ++ (s.resp_queue ++ notifiedOf es) := by
  induction es with
  | nil =>
    intro s
    simp [notifyRun, notifiedOf]
  | cons e es ih =>
    intro s
    cases e with
    | notify h d =>
      have hh := ih { s with resp_queue := s.resp_queue ++ [(h, d)] }
      simp only [notifyRun, notifyStep, BleakDriver.safe_handler]
      rw [hh]
      simp [notifiedOf]
    | dispatch =>
      obtain ⟨q, hd⟩ := s
      cases q with
      | nil =>
        have hh := ih { resp_queue := [], handled := hd }
        simp only [notifyRun, notifyStep, processingStep]
        rw [hh]
        simp [notifiedOf]
      | cons m rest =>
        have hh := ih { resp_queue := rest, handled := hd ++ [m] }
        simp only [notifyRun, notifyStep, processingStep]
        rw [hh]
        simp [notifiedOf]

theorem processingSteps_drain (q : List (Nat × List Nat)) :
    ∀ handled : List (Nat × List Nat),
      processingSteps { resp_queue := q, handled := handled } q.length =
        { resp_queue := [], handled := handled ++ q } := by
  induction q with
  | nil =>
    intro handled
    simp [processingSteps]
  | cons m rest ih =>
    intro handled
    simp only [List.length_cons, processingSteps, processingStep]
    rw [ih (handled ++ [m])]
    simp

/-! ## Claim theorems -/

/-- C1 (counterexample): the claim is false for `BleakConnection.connect`
(cbleak.py lines 218-243), one of the two cited `connect` implementations: it
performs a single discovery scan, so in the spec's scenario — scan 1 holds only
the non-matching `11:22:33:44:55:66`, scan 2 holds the target
`AA:BB:CC:DD:EE:FF` — it raises device-not-found even though the second scan
would have matched. -/
theorem connect_scenario_single_scan_fails :
    BleakConnection.connect scansC1 (some "AA:BB:CC:DD:EE:FF") none =
      Except.error "Device not found." ∧
    findFirstMatch (scansC1 1) (some "AA:BB:CC:DD:EE:FF") none =
      some { address := "AA:BB:CC:DD:EE:FF", name := none } :=
  ⟨rfl, rfl⟩

/-- C1 (amended): `BleakConnection2.connect` repeats discovery scans up to its
attempt limit of 30 and succeeds on a later scan when an earlier scan found no
match: in the spec's scenario it finds nothing on scan 1, succeeds on scan 2,
and issues exactly one Transport connect, with the target's address; and for
every environment in which no attempt yields a match it raises
device-not-found.  `BleakConnection.connect`, by contrast, performs exactly one
scan (see the counterexample). -/
theorem connect2_retry_scenario_and_exhaustion
    (scans : Nat → List Device) (hub_mac hub_name : Option String)
    (hnone : ∀ i < 30, findFirstMatch (scans i) hub_mac hub_name = none) :
    BleakConnection2.connect scans hub_mac hub_name =
      Except.error "Device not found." ∧
    BleakConnection2.connect scansC1 (some "AA:BB:CC:DD:EE:FF") none =
      Except.ok ("AA:BB:CC:DD:EE:FF",
        [TransportOp.connect "AA:BB:CC:DD:EE:FF",
         TransportOp.subscribe MOVE_HUB_HW_UUID_CHAR]) ∧
    findFirstMatch (scansC1 0) (some "AA:BB:CC:DD:EE:FF") none = none := by
  refine ⟨?_, rfl, rfl⟩
  have hloop : connect2Loop hub_mac hub_name ((List.range 30).map scans) = none := by
    apply connect2Loop_eq_none
    intro scan hscan
    rcases List.mem_map.mp hscan with ⟨i, hi, rfl⟩
    exact hnone i (List.mem_range.mp hi)
  simp [BleakConnection2.connect, hloop]

/-- C1 (witness): with an environment whose every scan is empty,
`BleakConnection2.connect` raises device-not-found. -/
theorem connect2_retry_scenario_and_exhaustion_witness :
    BleakConnection2.connect (fun _ => []) (some "AA:BB:CC:DD:EE:FF") none =
      Except.error "Device not found." :=
  (connect2_retry_scenario_and_exhaustion (fun _ => [])
    (some "AA:BB:CC:DD:EE:FF") none (fun _ _ => rfl)).1

/-- C2 (counterexample): before `enable_notifications()` has ever been called,
both thread references of a fresh `BleakDriver` are still `None`, so
`BleakDriver.write` dereferences `None` and fails with `AttributeError`, not
with the `ConnectionError` (`NotRunningError` kind) the claim requires. -/
theorem write_before_enable_raises_attribute_error :
    BleakDriver.write (BleakDriver.init none none) 14 [5, 0, 1, 1, 5] =
      Except.error (PyError.attributeError
        "NoneType object has no attribute is_alive") ∧
    BleakDriver.write (BleakDriver.init none none) 14 [5, 0, 1, 1, 5] ≠
      Except.error (PyError.connectionError
        "Something went wrong, communication threads not functioning.") :=
  ⟨rfl, fun h => by simp [BleakDriver.write, BleakDriver.init] at h⟩

/-- C2 (amended): once both thread references exist (i.e. after
`enable_notifications()` has run), `BleakDriver.write` with the two threads not
both alive — e.g. after `disconnect()` has stopped them — fails with the
not-running `ConnectionError` and enqueues nothing; before
`enable_notifications()` it instead fails with `AttributeError`. -/
theorem write_not_running_error_after_threads_exist
    (s : DriverState) (handle : Nat) (data : List Nat) (ct pt : ThreadRef)
    (hct : s.connection_thread = some ct)
    (hpt : s.processing_thread = some pt)
    (hdead : (ct.alive && pt.alive) = false) :
    BleakDriver.write s handle data =
      Except.error (PyError.connectionError
        "Something went wrong, communication threads not functioning.") ∧
    (∀ t : DriverState, t.connection_thread = none →
      BleakDriver.write t handle data =
        Except.error (PyError.attributeError
          "NoneType object has no attribute is_alive")) := by
  constructor
  · cases hca : ct.alive with
    | false => simp [BleakDriver.write, hct, hca]
    | true =>
      cases hpa : pt.alive with
      | false => simp [BleakDriver.write, hct, hpt, hca, hpa]
      | true => rw [hca, hpa] at hdead; cases hdead
  · intro t ht
    simp [BleakDriver.write, ht]

/-- C2 (witness): after both units have been stopped (dead thread objects),
`write` fails with the not-running `ConnectionError`. -/
theorem write_not_running_error_after_threads_exist_witness :
    BleakDriver.write
        { hub_mac := none, hub_name := none, handler_set := true, abort := true,
          connection_thread := some { alive := false },
          processing_thread := some { alive := false },
          conn_threads_started := 1, proc_threads_started := 1,
          req_queue := [] } 14 [5, 0, 1, 1, 5] =
      Except.error (PyError.connectionError
        "Something went wrong, communication threads not functioning.") :=
  (write_not_running_error_after_threads_exist _ 14 [5, 0, 1, 1, 5]
    { alive := false } { alive := false } rfl rfl rfl).1

/-- C3: over every interleaving of caller enqueues and drain-loop iterations
starting from the empty bridge, the Transport's observed write sequence
followed by the still-pending queue equals exactly the channel-enqueue order —
so the Transport observes writes in enqueue order, never reordered — and each
drain iteration dequeues and writes at most one pending write. -/
theorem write_order_equals_enqueue_order (es : List BridgeEvent) :
    (bridgeRun { req_queue := [], written := [] } es).written ++
        (bridgeRun { req_queue := [], written := [] } es).req_queue =
      enqueuedOf es ∧
    (∃ pending,
      (bridgeRun { req_queue := [], written := [] } es).written ++ pending =
        enqueuedOf es) ∧
    (∀ s : BridgeState,
      (drainStep s).written = s.written ∨
      ∃ w, s.req_queue = w :: (drainStep s).req_queue ∧
        (drainStep s).written = s.written ++ [w]) := by
  have h := bridgeRun_inv es { req_queue := [], written := [] }
  simp only [List.append_nil, List.nil_append] at h
  refine ⟨h, ⟨(bridgeRun { req_queue := [], written := [] } es).req_queue, h⟩, ?_⟩
  intro s
  obtain ⟨q, wr⟩ := s
  cases q with
  | nil => left; rfl
  | cons w rest => right; exact ⟨w, rfl, rfl⟩

/-- C4: over every interleaving of Transport notifications and dispatch-loop
iterations starting from the empty state, the handler-invocation sequence
followed by the still-queued notifications equals exactly the notification
order (so the Handler is invoked once per notification, in order, none
dropped); the subscription callback `_safe_handler` never invokes the Handler
(it only enqueues); and running the dispatch loop queue-length many iterations
delivers everything still queued, in order. -/
theorem handler_order_equals_notify_order (es : List NotifyEvent) :
    (notifyRun { resp_queue := [], handled := [] } es).handled ++
        (notifyRun { resp_queue := [], handled := [] } es).resp_queue =
      notifiedOf es ∧
    (∀ (s : DispatchState) (h : Nat) (d : List Nat),
      (BleakDriver.safe_handler s h d).handled = s.handled ∧
      (BleakDriver.safe_handler s h d).resp_queue = s.resp_queue ++ [(h, d)]) ∧
    (∀ s : DispatchState,
      processingSteps s s.resp_queue.length =
        { resp_queue := [], handled := s.handled ++ s.resp_queue }) := by
  have h := notifyRun_inv es { resp_queue := [], handled := [] }
  simp only [List.append_nil, List.nil_append] at h
  refine ⟨h, fun s hh d => ⟨rfl, rfl⟩, ?_⟩
  intro s
  obtain ⟨q, hd⟩ := s
  exact processingSteps_drain q hd

/-- C5: on both `BleakConnection.write` and `BleakConnection2.write`, a handle
with no registered descriptor sends the payload on the hardcoded default
characteristic `MOVE_HUB_HW_UUID_CHAR`, while a handle with a descriptor sends
on that descriptor's characteristic id; in particular
`write(0x0e, [0x05,0x00,0x01,0x01,0x05])` with no descriptor for `0x0e`
reaches the Transport on the default characteristic. -/
theorem write_resolves_handle_with_default_fallback
    (get_descriptor : Nat → Option Descriptor) (handle : Nat)
    (data : List Nat) :
    (get_descriptor handle = none →
      BleakConnection.write get_descriptor handle data =
        TransportOp.writeChar MOVE_HUB_HW_UUID_CHAR data ∧
      BleakConnection2.write get_descriptor handle data =
        TransportOp.writeChar MOVE_HUB_HW_UUID_CHAR data) ∧
    (∀ desc : Descriptor, get_descriptor handle = some desc →
      BleakConnection.write get_descriptor handle data =
        TransportOp.writeChar desc.characteristic_uuid data ∧
      BleakConnection2.write get_descriptor handle data =
        TransportOp.writeChar desc.characteristic_uuid data) ∧
    BleakConnection.write (fun _ => none) 14 [5, 0, 1, 1, 5] =
      TransportOp.writeChar MOVE_HUB_HW_UUID_CHAR [5, 0, 1, 1, 5] := by
  refine ⟨?_, ?_, rfl⟩
  · intro h
    constructor <;> simp [BleakConnection.write, BleakConnection2.write, h]
  · intro desc h
    constructor <;> simp [BleakConnection.write, BleakConnection2.write, h]

/-- C5 (witness): the descriptorless case falls back to the default
characteristic, and a registered descriptor routes to its characteristic. -/
theorem write_resolves_handle_with_default_fallback_witness :
    BleakConnection.write (fun _ => none) 14 [5, 0, 1, 1, 5] =
      TransportOp.writeChar MOVE_HUB_HW_UUID_CHAR [5, 0, 1, 1, 5] ∧
    BleakConnection.write
        (fun _ => some { characteristic_uuid := "uuid-14" }) 14 [5] =
      TransportOp.writeChar "uuid-14" [5] :=
  ⟨((write_resolves_handle_with_default_fallback (fun _ => none) 14
      [5, 0, 1, 1, 5]).1 rfl).1,
   ((write_resolves_handle_with_default_fallback
      (fun _ => some { characteristic_uuid := "uuid-14" }) 14 [5]).2.1
      { characteristic_uuid := "uuid-14" } rfl).1⟩

/-- C6: for every sequence of discovered devices and every match target, the
device selected is the first one in scan order the matcher accepts — devices
after the first match never influence the result (first-match-wins, not
best-match) — and both `connect` implementations connect to exactly that
device's address. -/
theorem connect_selects_first_match
    (pre post : List Device) (d : Device) (hub_mac hub_name : Option String)
    (hpre : ∀ x ∈ pre, is_device_matched x.address x.name hub_mac hub_name = false)
    (hd : is_device_matched d.address d.name hub_mac hub_name = true) :
    findFirstMatch (pre ++ d :: post) hub_mac hub_name = some d ∧
    (∀ post', findFirstMatch (pre ++ d :: post') hub_mac hub_name = some d) ∧
    BleakConnection.connect (fun _ => pre ++ d :: post) hub_mac hub_name =
      Except.ok (d.address, [TransportOp.connect d.address]) ∧
    BleakConnection2.connect (fun _ => pre ++ d :: post) hub_mac hub_name =
      Except.ok (d.address,
        [TransportOp.connect d.address,
         TransportOp.subscribe MOVE_HUB_HW_UUID_CHAR]) := by
  have hfind : ∀ post' : List Device,
      findFirstMatch (pre ++ d :: post') hub_mac hub_name = some d :=
    fun post' => find?_first_of_prefix_false _ pre d post' hpre hd
  refine ⟨hfind post, hfind, ?_, ?_⟩
  · simp [BleakConnection.connect, hfind post]
  · have hloop := connect2Loop_head_match (fun _ => pre ++ d :: post)
      hub_mac hub_name d (hfind post)
    unfold BleakConnection2.connect
    rw [hloop]

/-- C6 (witness): among a non-matching device, the target, and a later device
whose address also matches, the first matching device in scan order is the one
selected and connected to. -/
theorem connect_selects_first_match_witness :
    findFirstMatch
        [{ address := "11:22:33:44:55:66", name := none },
         { address := "AA:BB:CC:DD:EE:FF", name := none },
         { address := "aa:bb:cc:dd:ee:ff", name := none }]
        (some "AA:BB:CC:DD:EE:FF") none =
      some { address := "AA:BB:CC:DD:EE:FF", name := none } :=
  (connect_selects_first_match
    [{ address := "11:22:33:44:55:66", name := none }]
    [{ address := "aa:bb:cc:dd:ee:ff", name := none }]
    { address := "AA:BB:CC:DD:EE:FF", name := none }
    (some "AA:BB:CC:DD:EE:FF") none (by decide) (by decide)).1

/-- C7 (counterexample): the drain loop of `_bleak_thread` has no exception
handling around `await bleak.write(...)`, so a single failing transport write
terminates the loop with the exception: with the first queued write failing,
the loop dies and the second queued write is never delivered, contradicting
the claim that the execution unit logs the error and continues. -/
theorem drain_loop_dies_on_failed_write :
    runBleakLoop
        (fun w => if w.1 = 1 then Except.error "write failed" else Except.ok ())
        [(1, [0]), (2, [0])] [] =
      Except.error "write failed" ∧
    runBleakLoop (fun _ => Except.ok ()) [(1, [0]), (2, [0])] [] =
      Except.ok [(1, [0]), (2, [0])] :=
  ⟨rfl, rfl⟩

/-- C7 (amended): a Transport-level write failure inside the write-drain loop
is not caught: the exception propagates and terminates the drain loop
immediately, and no subsequently queued write is performed (failure is then
observable only through the communication thread no longer being alive). -/
theorem failed_write_terminates_drain_loop
    (transport_write : Nat × List Nat → Except String Unit)
    (w : Nat × List Nat) (rest written : List (Nat × List Nat)) (e : String)
    (h : transport_write w = Except.error e) :
    runBleakLoop transport_write (w :: rest) written = Except.error e := by
  simp only [runBleakLoop, h]

/-- C7 (witness): a concrete failing first write terminates the loop. -/
theorem failed_write_terminates_drain_loop_witness :
    runBleakLoop (fun _ => Except.error "boom") [(1, []), (2, [])] [] =
      Except.error "boom" :=
  failed_write_terminates_drain_loop (fun _ => Except.error "boom")
    (1, []) [(2, [])] [] "boom" rfl

/-- C8 (counterexample): `BleakConnection2.disconnect` has no exception
handling around `client.disconnect()`, so a Transport disconnect failure
propagates to the caller instead of being swallowed: with the client
connected and the transport disconnect failing, the call raises. -/
theorem disconnect_propagates_transport_failure :
    BleakConnection2.disconnect { abort := false, client_connected := true }
        (Except.error "transport disconnect failed") =
      Except.error "transport disconnect failed" :=
  rfl

/-- C8 (amended): `BleakDriver.disconnect` only sets the shutdown flag — it
always completes but never requests the Transport to close the link;
`BleakConnection2.disconnect` requests Transport close when the client is
connected, and a Transport disconnect failure propagates to the caller rather
than being swallowed, while a successful close completes the teardown. -/
theorem disconnect_best_effort_amended
    (s : Conn2State) (d : DriverState) (e : String)
    (hconn : s.client_connected = true) :
    BleakConnection2.disconnect s (Except.error e) = Except.error e ∧
    BleakConnection2.disconnect s (Except.ok ()) =
      Except.ok ({ abort := true, client_connected := false },
        [TransportOp.close]) ∧
    (BleakDriver.disconnect d).1 = { d with abort := true } ∧
    (BleakDriver.disconnect d).2 = [] := by
  obtain ⟨a, c⟩ := s
  cases hconn
  exact ⟨rfl, rfl, rfl, rfl⟩

/-- C8 (witness): with a connected client and a failing transport disconnect,
`BleakConnection2.disconnect` raises; `BleakDriver.disconnect` on a fresh
driver sets the flag and issues no transport operation. -/
theorem disconnect_best_effort_amended_witness :
    BleakConnection2.disconnect { abort := false, client_connected := true }
        (Except.error "boom") = Except.error "boom" ∧
    BleakConnection2.disconnect { abort := false, client_connected := true }
        (Except.ok ()) =
      Except.ok ({ abort := true, client_connected := false },
        [TransportOp.close]) ∧
    (BleakDriver.disconnect (BleakDriver.init none none)).1 =
      { BleakDriver.init none none with abort := true } ∧
    (BleakDriver.disconnect (BleakDriver.init none none)).2 = [] :=
  disconnect_best_effort_amended { abort := false, client_connected := true }
    (BleakDriver.init none none) "boom" rfl

/-- C9 (counterexample): `enable_notifications` has no guard against already
running units: calling it twice on a fresh driver starts two connection
threads and two processing threads, so after two calls more than one
transport-owning unit has been started, contradicting the claim. -/
theorem enable_notifications_twice_starts_two_units :
    (BleakDriver.enable_notifications (BleakDriver.enable_notifications
        (BleakDriver.init none none))).conn_threads_started = 2 ∧
    (BleakDriver.enable_notifications (BleakDriver.enable_notifications
        (BleakDriver.init none none))).proc_threads_started = 2 ∧
    ¬ (BleakDriver.enable_notifications (BleakDriver.enable_notifications
        (BleakDriver.init none none))).conn_threads_started ≤ 1 := by
  refine ⟨rfl, rfl, ?_⟩
  decide

/-- C9 (amended): every call to `enable_notifications` unconditionally starts
one new transport-owning unit and one new dispatch unit, whatever the current
state — so a call while units are already running starts duplicates, and the
driver keeps references only to the most recently started (running) pair. -/
theorem enable_notifications_always_starts_new_units (s : DriverState) :
    (BleakDriver.enable_notifications s).conn_threads_started =
        s.conn_threads_started + 1 ∧
    (BleakDriver.enable_notifications s).proc_threads_started =
        s.proc_threads_started + 1 ∧
    (BleakDriver.enable_notifications s).connection_thread =
        some { alive := true } ∧
    (BleakDriver.enable_notifications s).processing_thread =
        some { alive := true } :=
  ⟨rfl, rfl, rfl, rfl⟩

/-- C10: whenever discovery succeeds, the transport trace of `_bleak_thread`
is exactly: the one Transport connect, the notification subscription, then one
keepalive write with payload `[0x05, 0x00, 0x01, 0x01, 0x05]` on the hardcoded
default characteristic, and only then the drained caller writes — so the
keepalive precedes every caller-enqueued write and is issued whatever the
request queue holds (in particular when the caller enqueued nothing). -/
theorem bleak_thread_sends_keepalive_first
    (scans : Nat → List Device) (hub_mac hub_name : Option String)
    (get_descriptor : Nat → Option Descriptor)
    (drained : List (Nat × List Nat)) (d : Device)
    (h : findFirstMatch (scans 0) hub_mac hub_name = some d) :
    BleakDriver.bleak_thread scans hub_mac hub_name get_descriptor drained =
      Except.ok
        ([TransportOp.connect d.address,
          TransportOp.subscribe MOVE_HUB_HW_UUID_CHAR,
          TransportOp.writeChar MOVE_HUB_HW_UUID_CHAR [5, 0, 1, 1, 5]] ++
         drained.map (fun w => BleakConnection.write get_descriptor w.1 w.2)) := by
  simp [BleakDriver.bleak_thread, BleakConnection.connect, h,
    BleakConnection.write_char]

/-- C10 (witness): with one discovered device, no descriptors, and one queued
caller write, the keepalive is the third transport operation, before the
caller's write. -/
theorem bleak_thread_sends_keepalive_first_witness :
    BleakDriver.bleak_thread (fun _ => [{ address := "AA", name := none }])
        none none (fun _ => none) [(14, [1])] =
      Except.ok
        [TransportOp.connect "AA",
         TransportOp.subscribe MOVE_HUB_HW_UUID_CHAR,
         TransportOp.writeChar MOVE_HUB_HW_UUID_CHAR [5, 0, 1, 1, 5],
         TransportOp.writeChar MOVE_HUB_HW_UUID_CHAR [1]] :=
  bleak_thread_sends_keepalive_first (fun _ => [{ address := "AA", name := none }])
    none none (fun _ => none) [(14, [1])] { address := "AA", name := none } rfl

end Pylgbst
